import Mathlib

/-!
# Verification of the VirtualCoffee drinks storage (`app/main.py`)

Shallow embedding of the drink model, pydantic-style validation and the
`DrinkStorage` class.  Python strings become `String`, Python floats become
`ℚ` (only equality and order comparisons on prices occur in the code),
Python ints become `Int`.  The file system is abstracted to the content of
the single backing file together with a boolean telling whether a write
attempt would succeed; the JSON (de)serialization layer is assumed faithful,
so the persisted document is modelled as a structured value whose two
members may each be missing (mirroring `data.get('drinks', [])` and
`data.get('next_id', 1)`).
-/

/- ## Python string primitives

Lean's built-in `String.toLower`, `String.trim` and `String.startsWith` do
not reduce inside the kernel, so the Python string methods the code uses
are embedded directly over the character list. -/

/-- ASCII lowercasing of one character, as `str.lower` acts on the
characters occurring in this program. -/
def lowerChar (c : Char) : Char :=
  if 65 ≤ c.toNat ∧ c.toNat ≤ 90 then Char.ofNat (c.toNat + 32) else c

/-- Python `str.lower`. -/
def pyLower (s : String) : String :=
  ⟨s.data.map lowerChar⟩

/-- Python's whitespace set for `str.strip`. -/
def isSpaceChar (c : Char) : Bool :=
  c = ' ' ∨ c = '\t' ∨ c = '\n' ∨ c = '\r' ∨ c = '\x0b' ∨ c = '\x0c'

/-- Python `str.strip`: drop leading and trailing whitespace. -/
def pyStrip (s : String) : String :=
  ⟨((s.data.dropWhile isSpaceChar).reverse.dropWhile isSpaceChar).reverse⟩

/-- Python `str.startswith`. -/
def pyStartsWith (s p : String) : Bool :=
  s.data.take p.data.length == p.data

/-- A drink record as stored in `DrinkStorage.drinks` (a Python dict with
keys `id`, `name`, `size`, `price`). -/
structure DrinkRec where
  id : Int
  name : String
  size : String
  price : ℚ
deriving Repr, DecidableEq

/-- The creation input (`DrinkCreate`): the fields of a drink minus `id`. -/
structure DrinkCreate where
  name : String
  size : String
  price : ℚ
deriving Repr, DecidableEq

/-- The persisted JSON document: an object whose members `drinks` and
`next_id` may each be absent (`load_data` reads them with
`data.get('drinks', [])` / `data.get('next_id', 1)`). -/
structure JsonDoc where
  drinks : Option (List DrinkRec)
  next_id : Option Int
deriving Repr, DecidableEq

/-- What the backing file at `data_file` holds: nothing, content that fails
to parse as a JSON object, or a parsed document. -/
inductive FileContent where
  | absent
  | malformed
  | doc (d : JsonDoc)
deriving Repr, DecidableEq

/-- The mutable state of a `DrinkStorage` instance. -/
structure Storage where
  data_file : String
  drinks : List DrinkRec
  next_id : Int
deriving Repr, DecidableEq

/- ## Validation (`DrinkBase` and its field validators) -/

/-- `name_must_not_be_empty` as written in the source (lines 17–21).
NOTE: in the source the line above the `def` reads `field_validator('name')`
without the `@` of a decorator, so pydantic never registers this validator;
it is dead code.  It is embedded here to compare its behaviour with the
validation that actually runs. -/
def name_must_not_be_empty (v : String) : Except String String :=
  if v = "" ∨ pyStrip v = "" then Except.error "Name cannot be empty"
  else Except.ok (pyStrip v)

/-- `size_must_be_valid` (registered with `@field_validator('size')`). -/
def size_must_be_valid (v : String) : Except String String :=
  if v = "S" ∨ v = "M" ∨ v = "L" then Except.ok v
  else Except.error "Size must be S, M, or L"

/-- `price_must_be_positive` (registered with `@field_validator('price')`). -/
def price_must_be_positive (v : ℚ) : Except String ℚ :=
  if v ≤ 0 then Except.error "Price must be greater than 0"
  else Except.ok v

/-- A field-level validation error: offending field and message, as in
pydantic's error list. -/
structure FieldError where
  loc : String
  msg : String
deriving Repr, DecidableEq

/-- Validation that actually runs on the `name` field: only the
`Field(..., min_length=1)` constraint, because the custom validator's
decorator is missing its `@`.  No trimming happens. -/
def validate_name (v : String) : Except String String :=
  if v.length < 1 then Except.error "String should have at least 1 character"
  else Except.ok v

/-- Validation that runs on `size`: the registered custom validator. -/
def validate_size (v : String) : Except String String :=
  size_must_be_valid v

/-- Validation that runs on `price`: the `Field(..., gt=0)` constraint,
then the registered custom validator. -/
def validate_price (v : ℚ) : Except String ℚ :=
  if v ≤ 0 then Except.error "Input should be greater than 0"
  else price_must_be_positive v

/-- Full validation of a creation payload as pydantic performs it for
`DrinkCreate`: the three fields are checked independently and all failures
are reported together. -/
def validateCreate (name size : String) (price : ℚ) :
    Except (List FieldError) DrinkCreate :=
  match validate_name name, validate_size size, validate_price price with
  | Except.ok n, Except.ok s, Except.ok p => Except.ok ⟨n, s, p⟩
  | rn, rs, rp =>
      Except.error
        ((match rn with | Except.error m => [⟨"name", m⟩] | _ => []) ++
         (match rs with | Except.error m => [⟨"size", m⟩] | _ => []) ++
         (match rp with | Except.error m => [⟨"price", m⟩] | _ => []))

/- ## The storage component (`DrinkStorage`) -/

/-- The seed used by `_init_default_data` when `data_file` starts with
`"test_"`. -/
def testSeed : List DrinkRec :=
  [⟨1, "Test Espresso", "S", 2⟩, ⟨2, "Test Latte", "M", 3⟩]

/-- The seed used by `_init_default_data` for ordinary paths. -/
def defaultSeed : List DrinkRec :=
  [⟨1, "Espresso", "S", (5 : ℚ)/2⟩, ⟨2, "Latte", "M", (7 : ℚ)/2⟩,
   ⟨3, "Cappuccino", "M", 3⟩, ⟨4, "Americano", "L", (14 : ℚ)/5⟩]

/-- `save_data`: serializes the whole state and writes it to the backing
file.  A failed write raises inside the `try`, is caught, and only an error
message is printed (returned here as the `Option String`); the file is left
as it was. -/
def save_data (writeOk : Bool) (s : Storage) (fs : FileContent) :
    FileContent × Option String :=
  if writeOk then
    (FileContent.doc ⟨some s.drinks, some s.next_id⟩, none)
  else
    (fs, some "Error saving data")

/-- `_init_default_data`: chooses the seed by whether the file name starts
with `"test_"`, installs it with the corresponding `next_id`, and calls
`save_data`. -/
def _init_default_data (writeOk : Bool) (s : Storage) (fs : FileContent) :
    Storage × FileContent × Option String :=
  let s' :=
    if pyStartsWith s.data_file "test_" then
      { s with drinks := testSeed, next_id := 3 }
    else
      { s with drinks := defaultSeed, next_id := 5 }
  let r := save_data writeOk s' fs
  (s', r.1, r.2)

/-- `load_data`: if the file exists and parses, adopt its members verbatim
(with the `data.get` defaults); if it is absent, or any step inside the
`try` fails, fall back to `_init_default_data`. -/
def load_data (writeOk : Bool) (s : Storage) (fs : FileContent) :
    Storage × FileContent × Option String :=
  match fs with
  | FileContent.doc d =>
      ({ s with drinks := d.drinks.getD [], next_id := d.next_id.getD 1 },
       fs, none)
  | FileContent.absent => _init_default_data writeOk s fs
  | FileContent.malformed => _init_default_data writeOk s fs

/-- `DrinkStorage.__init__`: sets `drinks = []`, `next_id = 1`, then runs
`load_data` against the backing file. -/
def DrinkStorage.init (data_file : String) (writeOk : Bool)
    (fs : FileContent) : Storage × FileContent × Option String :=
  load_data writeOk ⟨data_file, [], 1⟩ fs

/-- `get_all_drinks`: returns the in-memory list. -/
def get_all_drinks (s : Storage) : List DrinkRec :=
  s.drinks

/-- `get_drink_by_name`: the list comprehension
`[drink for drink in self.drinks if drink["name"].lower() == name.lower()]`. -/
def get_drink_by_name (s : Storage) (name : String) : List DrinkRec :=
  s.drinks.filter (fun d => pyLower d.name == pyLower name)

/-- `add_drink`: builds the new record with `id = next_id`, appends it,
increments `next_id`, saves, and returns the record.  Nothing in it can
raise (`save_data` catches internally), so it is a total function. -/
def add_drink (writeOk : Bool) (s : Storage) (c : DrinkCreate)
    (fs : FileContent) : DrinkRec × Storage × FileContent × Option String :=
  let new_drink : DrinkRec := ⟨s.next_id, c.name, c.size, c.price⟩
  let s' := { s with drinks := s.drinks ++ [new_drink],
                     next_id := s.next_id + 1 }
  let r := save_data writeOk s' fs
  (new_drink, s', r.1, r.2)

/- ## Derived notions used by the theorems -/

/-- The store-document invariant of §3: `next_id` is strictly greater than
every `id` present among the current records. -/
def StoreInv (s : Storage) : Prop :=
  ∀ d ∈ s.drinks, d.id < s.next_id

instance (s : Storage) : Decidable (StoreInv s) :=
  inferInstanceAs (Decidable (∀ d ∈ s.drinks, d.id < s.next_id))

/-- Storage states reachable through `DrinkStorage.__init__` against an
arbitrary backing file followed by any sequence of `add_drink` calls. -/
inductive Reachable : Storage → Prop where
  | init (p : String) (w : Bool) (fs : FileContent) :
      Reachable (DrinkStorage.init p w fs).1
  | add (w : Bool) (s : Storage) (c : DrinkCreate) (fs : FileContent)
      (h : Reachable s) :
      Reachable (add_drink w s c fs).2.1

/-- Storage states reachable through `DrinkStorage.__init__` against an
absent or unparsable backing file (so that default seeding runs) followed
by any sequence of `add_drink` calls. -/
inductive ReachableSeeded : Storage → Prop where
  | seeded (p : String) (w : Bool) (fs : FileContent)
      (h : fs = FileContent.absent ∨ fs = FileContent.malformed) :
      ReachableSeeded (DrinkStorage.init p w fs).1
  | add (w : Bool) (s : Storage) (c : DrinkCreate) (fs : FileContent)
      (h : ReachableSeeded s) :
      ReachableSeeded (add_drink w s c fs).2.1

/-- A whole sequence of later `add_drink` calls, each with its own write
outcome and file value. -/
def applyAdds (s : Storage) : List (Bool × DrinkCreate × FileContent) → Storage
  | [] => s
  | (w, c, fs) :: rest => applyAdds (add_drink w s c fs).2.1 rest

/-- The storage state produced by default seeding for path `p`. -/
def seededStorage (p : String) : Storage :=
  if pyStartsWith p "test_" then ⟨p, testSeed, 3⟩ else ⟨p, defaultSeed, 5⟩

/-- A loaded record list that violates every creation rule: duplicate
non-unique ids, an empty name, sizes outside `{S, M, L}`, non-positive
prices. -/
def invalidRecs : List DrinkRec :=
  [⟨1, "", "XL", -1⟩, ⟨1, "Dup", "Q", 0⟩]

/- ## Theorems for the claims -/

/-- Helper: against an absent or unparsable file, initialization runs
`_init_default_data`, so the state is `seededStorage` and the file outcome
is that of saving it. -/
theorem init_eq_seeded (p : String) (w : Bool) (fs : FileContent)
    (h : fs = FileContent.absent ∨ fs = FileContent.malformed) :
    (DrinkStorage.init p w fs).1 = seededStorage p
    ∧ (DrinkStorage.init p w fs).2 = save_data w (seededStorage p) fs := by
  by_cases hp : pyStartsWith p "test_" <;>
    rcases h with h | h <;> subst h <;>
      simp [DrinkStorage.init, load_data, _init_default_data, seededStorage, hp]

/-- Helper: a record present in the store stays present through any later
sequence of `add_drink` calls. -/
theorem mem_applyAdds {r : DrinkRec} :
    ∀ (ops : List (Bool × DrinkCreate × FileContent)) (s : Storage),
      r ∈ s.drinks → r ∈ (applyAdds s ops).drinks := by
  intro ops
  induction ops with
  | nil => exact fun s h => h
  | cons op rest ih =>
      intro s h
      obtain ⟨w, c, fs⟩ := op
      exact ih _ (List.mem_append_left _ h)

/-- C1: for every valid creation input and every store state, `add_drink`
returns the record built from the input with `id` equal to the store's
`next_id` before the call, appends exactly that record at the end of the
in-memory sequence, and sets `next_id` to its old value plus 1. -/
theorem add_drink_assigns_next_id (w : Bool) (s : Storage) (c : DrinkCreate)
    (fs : FileContent)
    (_h : validateCreate c.name c.size c.price = Except.ok c) :
    (add_drink w s c fs).1 = ⟨s.next_id, c.name, c.size, c.price⟩
    ∧ (add_drink w s c fs).2.1.drinks = s.drinks ++ [(add_drink w s c fs).1]
    ∧ (add_drink w s c fs).2.1.next_id = s.next_id + 1 :=
  ⟨rfl, rfl, rfl⟩

theorem add_drink_assigns_next_id_witness :
    (add_drink true ⟨"drinks.json", defaultSeed, 5⟩ ⟨"Mocha", "L", 4⟩
        FileContent.absent).1 = ⟨5, "Mocha", "L", 4⟩
    ∧ (add_drink true ⟨"drinks.json", defaultSeed, 5⟩ ⟨"Mocha", "L", 4⟩
        FileContent.absent).2.1.drinks =
        defaultSeed ++ [(add_drink true ⟨"drinks.json", defaultSeed, 5⟩
          ⟨"Mocha", "L", 4⟩ FileContent.absent).1]
    ∧ (add_drink true ⟨"drinks.json", defaultSeed, 5⟩ ⟨"Mocha", "L", 4⟩
        FileContent.absent).2.1.next_id = 5 + 1 :=
  add_drink_assigns_next_id true ⟨"drinks.json", defaultSeed, 5⟩
    ⟨"Mocha", "L", 4⟩ FileContent.absent (by rfl)

/-- C2: the whitespace-only name `" "` passes the validation that actually
runs (only `min_length=1`; the custom name validator's decorator lacks its
`@`, so pydantic never registers it) and the accepted value is NOT trimmed,
while the validator as written in the source would have rejected it; a
padded name is likewise accepted without trimming. -/
theorem name_validation_not_applied :
    validateCreate " " "M" 3 = Except.ok ⟨" ", "M", 3⟩
    ∧ name_must_not_be_empty " " = Except.error "Name cannot be empty"
    ∧ validateCreate " Latte " "M" 3 = Except.ok ⟨" Latte ", "M", 3⟩
    ∧ name_must_not_be_empty " Latte " = Except.ok "Latte" :=
  ⟨rfl, rfl, rfl, rfl⟩

/-- C3 counterexample: with a write that cannot complete, `add_drink` does
not fail — it returns the new record normally, together with the unchanged
file and the logged error message. -/
theorem add_drink_write_failure_returns_normally :
    add_drink false ⟨"drinks.json", defaultSeed, 5⟩ ⟨"Mocha", "L", 4⟩
        (FileContent.doc ⟨some defaultSeed, some 5⟩)
      = (⟨5, "Mocha", "L", 4⟩,
         ⟨"drinks.json", defaultSeed ++ [⟨5, "Mocha", "L", 4⟩], 6⟩,
         FileContent.doc ⟨some defaultSeed, some 5⟩,
         some "Error saving data") :=
  rfl

/-- C3 amended: when the write cannot complete, the exception is caught
inside `save_data` and only logged; `add_drink` still returns the newly
constructed record, the in-memory state is updated, and the backing file is
left unchanged. -/
theorem add_drink_write_failure_caught (s : Storage) (c : DrinkCreate)
    (fs : FileContent) :
    (add_drink false s c fs).1 = ⟨s.next_id, c.name, c.size, c.price⟩
    ∧ (add_drink false s c fs).2.1.drinks =
        s.drinks ++ [(add_drink false s c fs).1]
    ∧ (add_drink false s c fs).2.2.1 = fs
    ∧ (add_drink false s c fs).2.2.2 = some "Error saving data" :=
  ⟨rfl, rfl, rfl, rfl⟩

/-- C5: `get_drink_by_name` returns a subsequence of the stored records in
stored order; a record is in the result exactly when it is stored and its
name equals the query case-insensitively (exact match); the result has one
entry per matching stored record; and when nothing matches the result is
the empty list (not an error). -/
theorem get_drink_by_name_spec (s : Storage) (n : String) :
    (get_drink_by_name s n).Sublist s.drinks
    ∧ (∀ d : DrinkRec,
        d ∈ get_drink_by_name s n ↔ d ∈ s.drinks ∧ pyLower d.name = pyLower n)
    ∧ (get_drink_by_name s n).length =
        s.drinks.countP (fun d => pyLower d.name == pyLower n)
    ∧ ((∀ d ∈ s.drinks, pyLower d.name ≠ pyLower n) →
        get_drink_by_name s n = []) := by
  refine ⟨List.filter_sublist _, ?_, ?_, ?_⟩
  · intro d
    simp [get_drink_by_name, List.mem_filter]
  · simp [get_drink_by_name, List.countP_eq_length_filter]
  · intro h
    simp only [get_drink_by_name, List.filter_eq_nil_iff]
    intro d hd
    simpa using h d hd

theorem get_drink_by_name_spec_witness :
    get_drink_by_name ⟨"drinks.json", defaultSeed, 5⟩ "Cortado" = [] :=
  (get_drink_by_name_spec ⟨"drinks.json", defaultSeed, 5⟩ "Cortado").2.2.2
    (by decide)

/-- C4 counterexample: `load_data` adopts a parsed document verbatim, so a
file whose `next_id` is not above the stored ids yields a reachable state
(Initialize followed by zero Add calls) violating the invariant. -/
theorem storage_invariant_counterexample :
    Reachable (DrinkStorage.init "drinks.json" true
        (FileContent.doc ⟨some [⟨5, "Mystery", "S", 1⟩], some 1⟩)).1
    ∧ ¬ StoreInv (DrinkStorage.init "drinks.json" true
        (FileContent.doc ⟨some [⟨5, "Mystery", "S", 1⟩], some 1⟩)).1 :=
  ⟨Reachable.init "drinks.json" true
      (FileContent.doc ⟨some [⟨5, "Mystery", "S", 1⟩], some 1⟩),
   by decide⟩

/-- C4 amended: for every state reachable through an Initialize that runs
default seeding (absent or unparsable file) followed by any sequence of
`add_drink` calls, `next_id` is strictly greater than every id present, and
each `add_drink` preserves this. -/
theorem storage_invariant (s : Storage) (h : ReachableSeeded s) :
    StoreInv s := by
  induction h with
  | seeded p w fs hfs =>
      rw [(init_eq_seeded p w fs hfs).1]
      unfold seededStorage
      by_cases hp : pyStartsWith p "test_" <;> simp [hp, StoreInv] <;> decide
  | add w s c fs _ ih =>
      intro d hd
      have hd' : d ∈ s.drinks ++ [⟨s.next_id, c.name, c.size, c.price⟩] := hd
      have hn : (add_drink w s c fs).2.1.next_id = s.next_id + 1 := rfl
      rw [hn]
      rcases List.mem_append.1 hd' with h1 | h1
      · exact lt_trans (ih d h1) (by omega)
      · rcases List.mem_singleton.1 h1 with rfl
        show s.next_id < s.next_id + 1
        omega

theorem storage_invariant_witness :
    StoreInv (DrinkStorage.init "drinks.json" true FileContent.absent).1 :=
  storage_invariant _
    (ReachableSeeded.seeded "drinks.json" true FileContent.absent (Or.inl rfl))

/-- C6 counterexample: a document that parses with an empty `drinks` array
is adopted verbatim, so after a successful Initialize the store can be
empty. -/
theorem init_nonempty_counterexample :
    (DrinkStorage.init "drinks.json" true
        (FileContent.doc ⟨some [], some 1⟩)).1.drinks = [] :=
  rfl

/-- C6 amended: when the backing file is absent or fails to parse and the
seeding write succeeds, after Initialize the store holds a non-empty record
list whose ids are positive and pairwise distinct, `next_id` exceeds every
id, and exactly that state has been persisted to the path. -/
theorem init_seeds_valid_state (p : String) (fs : FileContent)
    (h : fs = FileContent.absent ∨ fs = FileContent.malformed) :
    (DrinkStorage.init p true fs).1.drinks ≠ []
    ∧ StoreInv (DrinkStorage.init p true fs).1
    ∧ (∀ d ∈ (DrinkStorage.init p true fs).1.drinks, 0 < d.id)
    ∧ ((DrinkStorage.init p true fs).1.drinks.map DrinkRec.id).Nodup
    ∧ (DrinkStorage.init p true fs).2.1 =
        FileContent.doc ⟨some (DrinkStorage.init p true fs).1.drinks,
                         some (DrinkStorage.init p true fs).1.next_id⟩ := by
  obtain ⟨h1, h2⟩ := init_eq_seeded p true fs h
  rw [h1, h2]
  unfold seededStorage save_data
  by_cases hp : pyStartsWith p "test_" <;> simp [hp, StoreInv] <;> decide

theorem init_seeds_valid_state_witness :
    (DrinkStorage.init "drinks.json" true FileContent.absent).1.drinks ≠ []
    ∧ StoreInv (DrinkStorage.init "drinks.json" true FileContent.absent).1
    ∧ (∀ d ∈ (DrinkStorage.init "drinks.json" true
          FileContent.absent).1.drinks, 0 < d.id)
    ∧ ((DrinkStorage.init "drinks.json" true
          FileContent.absent).1.drinks.map DrinkRec.id).Nodup
    ∧ (DrinkStorage.init "drinks.json" true FileContent.absent).2.1 =
        FileContent.doc
          ⟨some (DrinkStorage.init "drinks.json" true
              FileContent.absent).1.drinks,
           some (DrinkStorage.init "drinks.json" true
              FileContent.absent).1.next_id⟩ :=
  init_seeds_valid_state "drinks.json" FileContent.absent (Or.inl rfl)

/-- C7 counterexample: the seed catalog is not the same for every path —
a path starting with `"test_"` is seeded with a different catalog than an
ordinary path. -/
theorem init_seed_depends_on_path :
    (DrinkStorage.init "test_a.json" true FileContent.absent).1.drinks ≠
      (DrinkStorage.init "drinks.json" true FileContent.absent).1.drinks := by
  decide

/-- C7 amended: against an absent or unparsable file, Initialize seeds a
catalog fixed by the path's class alone — the 2-drink test catalog with
`next_id = 3` when the file name starts with `"test_"`, the 4-drink default
catalog with `next_id = 5` otherwise — immediately persists it, the ids are
`1..k` with `next_id = k + 1`, and (Initialize being a function of path and
file content) re-initialization against the same class yields the same seed
and counter. -/
theorem init_seed_by_path_class (p : String) (fs : FileContent)
    (h : fs = FileContent.absent ∨ fs = FileContent.malformed) :
    (DrinkStorage.init p true fs).1.drinks =
        (if pyStartsWith p "test_" then testSeed else defaultSeed)
    ∧ (DrinkStorage.init p true fs).1.next_id =
        (if pyStartsWith p "test_" then 3 else 5)
    ∧ (DrinkStorage.init p true fs).2.1 =
        FileContent.doc
          ⟨some (if pyStartsWith p "test_" then testSeed else defaultSeed),
           some (if pyStartsWith p "test_" then 3 else 5)⟩
    ∧ (DrinkStorage.init p true fs).1.drinks.map DrinkRec.id =
        (if pyStartsWith p "test_" then [1, 2] else [1, 2, 3, 4])
    ∧ (DrinkStorage.init p true fs).1.next_id =
        (DrinkStorage.init p true fs).1.drinks.length + 1 := by
  obtain ⟨h1, h2⟩ := init_eq_seeded p true fs h
  rw [h1, h2]
  unfold seededStorage save_data
  by_cases hp : pyStartsWith p "test_" <;> simp [hp] <;> decide

theorem init_seed_by_path_class_witness :
    (DrinkStorage.init "test_a.json" true FileContent.absent).1.drinks =
        (if pyStartsWith "test_a.json" "test_" then testSeed else defaultSeed)
    ∧ (DrinkStorage.init "test_a.json" true FileContent.absent).1.next_id =
        (if pyStartsWith "test_a.json" "test_" then 3 else 5)
    ∧ (DrinkStorage.init "test_a.json" true FileContent.absent).2.1 =
        FileContent.doc
          ⟨some (if pyStartsWith "test_a.json" "test_" then testSeed
                 else defaultSeed),
           some (if pyStartsWith "test_a.json" "test_" then 3 else 5)⟩
    ∧ (DrinkStorage.init "test_a.json" true
          FileContent.absent).1.drinks.map DrinkRec.id =
        (if pyStartsWith "test_a.json" "test_" then [1, 2] else [1, 2, 3, 4])
    ∧ (DrinkStorage.init "test_a.json" true FileContent.absent).1.next_id =
        (DrinkStorage.init "test_a.json" true
          FileContent.absent).1.drinks.length + 1 :=
  init_seed_by_path_class "test_a.json" FileContent.absent (Or.inl rfl)

/-- C8: when the write during `add_drink` fails, the backing file is left
unchanged yet the appended record is not rolled back: it appears in the
result of `get_all_drinks` and of `get_drink_by_name` with its own name
after any sequence of later `add_drink` calls on the same instance. -/
theorem add_visible_after_failed_write (s : Storage) (c : DrinkCreate)
    (fs : FileContent) (ops : List (Bool × DrinkCreate × FileContent)) :
    (add_drink false s c fs).2.2.1 = fs
    ∧ (add_drink false s c fs).1 ∈
        get_all_drinks (applyAdds (add_drink false s c fs).2.1 ops)
    ∧ (add_drink false s c fs).1 ∈
        get_drink_by_name (applyAdds (add_drink false s c fs).2.1 ops)
          c.name := by
  have hmem : (add_drink false s c fs).1 ∈
      (applyAdds (add_drink false s c fs).2.1 ops).drinks :=
    mem_applyAdds ops _
      (List.mem_append_right _ (List.mem_singleton_self _))
  refine ⟨rfl, hmem, ?_⟩
  exact List.mem_filter.2 ⟨hmem, by simp only [beq_iff_eq]; rfl⟩

/-- C9: persisting any store state and initializing a fresh store against
the written document reproduces exactly the same records in the same order
and the same `next_id`. -/
theorem save_then_load_round_trip (s : Storage) (fs : FileContent)
    (p : String) (w : Bool) :
    (DrinkStorage.init p w (save_data true s fs).1).1.drinks = s.drinks
    ∧ (DrinkStorage.init p w (save_data true s fs).1).1.next_id =
        s.next_id :=
  ⟨rfl, rfl⟩

/-- C10: whatever record list a parsed document carries — validated or not —
the store adopts it verbatim: `get_all_drinks` returns it unchanged and
`get_drink_by_name` merely filters it by case-insensitive name equality,
with no re-validation against the drink model. -/
theorem loaded_records_not_revalidated (p : String) (w : Bool) (d : JsonDoc)
    (ds : List DrinkRec) (hd : d.drinks = some ds) :
    get_all_drinks (DrinkStorage.init p w (FileContent.doc d)).1 = ds
    ∧ ∀ n, get_drink_by_name (DrinkStorage.init p w (FileContent.doc d)).1 n
        = ds.filter (fun r => pyLower r.name == pyLower n) := by
  constructor
  · show d.drinks.getD [] = ds
    rw [hd]; rfl
  · intro n
    show (d.drinks.getD []).filter _ = _
    rw [hd]; rfl

theorem loaded_records_not_revalidated_witness :
    validateCreate "" "XL" (-1) =
      Except.error [⟨"name", "String should have at least 1 character"⟩,
                    ⟨"size", "Size must be S, M, or L"⟩,
                    ⟨"price", "Input should be greater than 0"⟩]
    ∧ (get_all_drinks (DrinkStorage.init "drinks.json" true
          (FileContent.doc ⟨some invalidRecs, some 1⟩)).1 = invalidRecs
       ∧ ∀ n, get_drink_by_name (DrinkStorage.init "drinks.json" true
            (FileContent.doc ⟨some invalidRecs, some 1⟩)).1 n
          = invalidRecs.filter (fun r => pyLower r.name == pyLower n)) :=
  ⟨rfl, loaded_records_not_revalidated "drinks.json" true
      ⟨some invalidRecs, some 1⟩ invalidRecs rfl⟩
